import Mathlib

/-!
Verification of the telemetry-normalization tool (`src/main.py`).

The development embeds the program shallowly:

* JSON values are the inductive `JVal`; Python dicts are association lists
  (first match wins, matching unique-key JSON objects).
* `iso_to_milliseconds` follows the source line by line: `str.replace('Z',
  '+00:00')`, `datetime.datetime.fromisoformat`, `dt.timestamp() * 1000`,
  `int(...)`.  CPython performs the last two steps in IEEE-754 binary64
  arithmetic (`timestamp()` is one correctly rounded division of the exact
  integer microsecond count by 10^6, and `* 1000` is one correctly rounded
  multiplication); that arithmetic is modelled exactly by `roundD`,
  round-to-nearest-ties-to-even at 53 significant bits over `Rat`.
* fallible Python code (KeyError / TypeError / AttributeError) is embedded
  in `Except PyErr`.
* `main` is embedded over the outcome of the two file loads; `.ok none`
  models "returned without writing the output file", `.ok (some l)` models
  "wrote the merged list `l`", `.error e` models an uncaught exception.
-/

/-! ## Timestamp normalizer -/

/-- `str.replace('Z', '+00:00')` on the character list of a Python string:
every occurrence of `'Z'` is replaced by the six characters `+00:00`
(the pattern is a single character, so occurrences cannot overlap). -/
def replaceZ : List Char → List Char
  | [] => []
  | c :: cs => if c = 'Z' then '+' :: '0' :: '0' :: ':' :: '0' :: '0' :: replaceZ cs
               else c :: replaceZ cs

/-- `iso_timestamp.replace('Z', '+00:00')` from line 24 of the source. -/
def pyReplaceZ (s : String) : String := ⟨replaceZ s.data⟩

/-- An aware `datetime.datetime` as produced by `fromisoformat`:
calendar fields plus an explicit UTC offset in minutes. -/
structure PyDateTime where
  year : Nat
  month : Nat
  day : Nat
  hour : Nat
  minute : Nat
  second : Nat
  microsecond : Nat
  offsetMinutes : Int
deriving DecidableEq, Repr

/-- Numeric value of an ASCII digit. -/
def digitVal (c : Char) : Option Nat :=
  if '0' ≤ c ∧ c ≤ '9' then some (c.toNat - '0'.toNat) else none

/-- Read exactly `n` ASCII digits as a decimal number, returning the rest. -/
def readNDigits : Nat → List Char → Option (Nat × List Char)
  | 0, cs => some (0, cs)
  | _ + 1, [] => none
  | n + 1, c :: cs =>
    match digitVal c, readNDigits n cs with
    | some d, some (v, rest) => some (d * 10 ^ n + v, rest)
    | _, _ => none

/-- Collect a maximal run of leading ASCII digits. -/
def readDigitRun : List Char → (List Nat × List Char)
  | [] => ([], [])
  | c :: cs =>
    match digitVal c with
    | some d =>
      let p := readDigitRun cs
      (d :: p.1, p.2)
    | none => ([], c :: cs)

/-- Microseconds from a fractional-digit run: the first six digits are kept
(CPython truncates extra fractional digits), shorter runs are padded with
zeros on the right. -/
def fracToMicro (ds : List Nat) : Nat :=
  (ds.take 6).foldl (fun a d => a * 10 + d) 0 * 10 ^ (6 - min ds.length 6)

/-- Gregorian leap year, as in `datetime`. -/
def isLeap (y : Nat) : Bool := y % 4 = 0 ∧ (y % 100 ≠ 0 ∨ y % 400 = 0)

/-- Days in a month of the proleptic Gregorian calendar. -/
def daysInMonth (y m : Nat) : Nat :=
  if m = 2 then (if isLeap y then 29 else 28)
  else if m = 4 ∨ m = 6 ∨ m = 9 ∨ m = 11 then 30
  else 31

/-- Days in the full years before year `y` (`datetime`'s `_days_before_year`). -/
def daysBeforeYear (y : Nat) : Nat :=
  (y - 1) * 365 + (y - 1) / 4 - (y - 1) / 100 + (y - 1) / 400

/-- Days in the full months before month `m` of year `y`. -/
def daysBeforeMonth (y m : Nat) : Nat :=
  [0, 31, 59, 90, 120, 151, 181, 212, 243, 273, 304, 334].getD (m - 1) 0
    + (if 2 < m ∧ isLeap y then 1 else 0)

/-- `date.toordinal()`: day number in the proleptic Gregorian calendar,
with 0001-01-01 as day 1 (1970-01-01 is day 719163). -/
def toordinal (y m d : Nat) : Nat := daysBeforeYear y + daysBeforeMonth y m + d

/-- Parse a UTC offset: a literal `Z`, or `+`/`-` followed by `HH` or
`HH:MM`, with `HH ≤ 23` and `MM ≤ 59` (CPython rejects offsets of 24 hours
or more).  Returns the offset in minutes and the remaining characters. -/
def parseOffset : List Char → Option (Int × List Char)
  | 'Z' :: rest => some (0, rest)
  | c :: rest =>
    if c = '+' ∨ c = '-' then
      match readNDigits 2 rest with
      | none => none
      | some (h, rest1) =>
        match rest1 with
        | ':' :: rest2 =>
          match readNDigits 2 rest2 with
          | none => none
          | some (m, rest3) =>
            if h ≤ 23 ∧ m ≤ 59 then
              some ((if c = '-' then -1 else 1) * (h * 60 + m), rest3)
            else none
        | _ =>
          if h ≤ 23 then some ((if c = '-' then -1 else 1) * (h * 60), rest1) else none
    else none
  | [] => none

/-- Parse the time-of-day part `HH[:MM[:SS[{.|,}ffffff...]]]`, returning
hour, minute, second, microsecond and the remaining characters. -/
def parseTime (cs : List Char) : Option (Nat × Nat × Nat × Nat × List Char) :=
  match readNDigits 2 cs with
  | none => none
  | some (h, r1) =>
    match r1 with
    | ':' :: r2 =>
      match readNDigits 2 r2 with
      | none => none
      | some (mi, r3) =>
        match r3 with
        | ':' :: r4 =>
          match readNDigits 2 r4 with
          | none => none
          | some (s, r5) =>
            match r5 with
            | c :: r6 =>
              if c = '.' ∨ c = ',' then
                match readDigitRun r6 with
                | ([], _) => none
                | (ds, r7) => some (h, mi, s, fracToMicro ds, r7)
              else some (h, mi, s, 0, c :: r6)
            | [] => some (h, mi, s, 0, [])
        | _ => some (h, mi, 0, 0, r3)
    | _ => some (h, 0, 0, 0, r1)

/-- `datetime.datetime.fromisoformat` (CPython 3.11 semantics), modelled for
the extended ISO-8601 format with an explicit UTC offset:
`YYYY-MM-DD` + any single separator character + `HH[:MM[:SS[.ffffff...]]]` +
(`Z` | `±HH[:MM]`), with calendar and range validation as in `datetime`.
Naive timestamps (no offset) are valid for CPython but their epoch
conversion goes through the host's local time zone, which is outside this
model; they are treated as unparseable here, as are the rarer basic-format,
week-date and seconds-bearing-offset spellings. -/
def fromisoChars (cs : List Char) : Option PyDateTime :=
  match readNDigits 4 cs with
  | none => none
  | some (y, r1) =>
    match r1 with
    | '-' :: r2 =>
      match readNDigits 2 r2 with
      | none => none
      | some (mo, r3) =>
        match r3 with
        | '-' :: r4 =>
          match readNDigits 2 r4 with
          | none => none
          | some (d, r5) =>
            if 1 ≤ y ∧ y ≤ 9999 ∧ 1 ≤ mo ∧ mo ≤ 12 ∧ 1 ≤ d ∧ d ≤ daysInMonth y mo then
              match r5 with
              | [] => none
              | _sep :: r6 =>
                match parseTime r6 with
                | none => none
                | some (h, mi, s, us, r7) =>
                  if h ≤ 23 ∧ mi ≤ 59 ∧ s ≤ 59 then
                    match parseOffset r7 with
                    | some (off, []) =>
                      some ⟨y, mo, d, h, mi, s, us, off⟩
                    | _ => none
                  else none
            else none
        | _ => none
    | _ => none

/-- `fromisoformat` on a `String`. -/
def fromiso (s : String) : Option PyDateTime := fromisoChars s.data

/-- Exact number of microseconds between an aware datetime and
1970-01-01T00:00:00Z: this is the integer the normalized
`timedelta` of CPython's `dt - _EPOCH` represents. -/
def totalMicros (dt : PyDateTime) : Int :=
  (((toordinal dt.year dt.month dt.day : Int) - 719163) * 86400
      + dt.hour * 3600 + dt.minute * 60 + dt.second
      - dt.offsetMinutes * 60) * 1000000
    + dt.microsecond

/-! ### The binary64 arithmetic of `int(dt.timestamp() * 1000)` -/

/-- `2 ^ e` as a rational, for an integer exponent. -/
def pow2Q (e : Int) : Rat :=
  if 0 ≤ e then ((2 ^ e.toNat : Nat) : Rat) else 1 / ((2 ^ (-e).toNat : Nat) : Rat)

/-- Fueled binary search downward: for `1 ≤ a` (and fuel at least the answer)
returns the greatest `e` with `2 ^ e ≤ a`. -/
def expDown : Nat → Rat → Int
  | 0, _ => 0
  | fuel + 1, a => if a < 2 then 0 else expDown fuel (a / 2) + 1

/-- Fueled binary search upward: for `1 < b` (and fuel at least the answer)
returns the least `k` with `b ≤ 2 ^ k`. -/
def expUp : Nat → Rat → Nat
  | 0, _ => 0
  | fuel + 1, b => if b ≤ 1 then 0 else expUp fuel (b / 2) + 1

/-- Binary exponent of a positive rational: the `e` with `2 ^ e ≤ a < 2 ^ (e+1)`.
The fuel 128 covers every magnitude this program can produce
(`|e| ≤ 60` for all reachable values). -/
def rexp (a : Rat) : Int :=
  if 1 ≤ a then expDown 128 a else -(expUp 128 a⁻¹ : Int)

/-- Floor of a rational (the denominator is positive, so floor division of
numerator by denominator). -/
def ratFloor (q : Rat) : Int := Int.fdiv q.num q.den

/-- Round a rational to the nearest integer, ties to even. -/
def rne (q : Rat) : Int :=
  let f := ratFloor q
  let r := q - f
  if r < 1 / 2 then f
  else if (1 : Rat) / 2 < r then f + 1
  else if f % 2 = 0 then f else f + 1

/-- Absolute value on `Rat`. -/
def ratAbs (x : Rat) : Rat := if x < 0 then -x else x

/-- Round a rational to the nearest IEEE-754 binary64 value (ties to even),
returned as the exact rational it denotes.  Overflow and subnormals are not
modelled; every value reachable in this program is a normal double. -/
def roundD (x : Rat) : Rat :=
  if x = 0 then 0
  else
    let a := ratAbs x
    let e := rexp a
    let m := rne (a * pow2Q (52 - e))
    let v := (m : Rat) * pow2Q (e - 52)
    if x < 0 then -v else v

/-- Python `int()` applied to a float value: truncation toward zero. -/
def pyTrunc (q : Rat) : Int := if 0 ≤ q then ratFloor q else -ratFloor (-q)

/-- `iso_to_milliseconds` (source lines 17–29).  On a parse failure
(`ValueError` from `fromisoformat`) the `except` branch returns the
sentinel 0.  On success the result is
`int(dt.timestamp() * 1000)`: `timestamp()` is the correctly rounded
binary64 division of the exact microsecond count by 10^6, the `* 1000` is a
second correctly rounded binary64 multiplication, and `int` truncates. -/
def iso_to_milliseconds (s : String) : Int :=
  match fromiso (pyReplaceZ s) with
  | none => 0
  | some dt => pyTrunc (roundD (roundD ((totalMicros dt : Rat) / 1000000) * 1000))

/-- The condition under which `iso_to_milliseconds` takes its `except`
branch and prints the `Invalid ISO timestamp format` diagnostic (line 28). -/
def iso_diag (s : String) : Bool := (fromiso (pyReplaceZ s)).isNone

/-- Modelled from the spec (§4.1): the contract value of the timestamp
normalizer — "the integer number of milliseconds elapsed since
1970-01-01T00:00:00Z, truncated toward zero (no rounding)" — for the
strings the normalizer parses.  This is the spec-side comparator for the
refinement claim about `iso_to_milliseconds`; it divides the exact
microsecond count by 1000 with no intermediate floating-point rounding. -/
def spec_exact_epoch_ms (s : String) : Option Int :=
  (fromiso (pyReplaceZ s)).map (fun dt => pyTrunc ((totalMicros dt : Rat) / 1000))

/-! ## JSON values, Python dicts, and the two mappers -/

/-- A parsed JSON value.  Python floats are represented by the exact
rational value of the binary64 they denote; JSON integers stay `Int`. -/
inductive JVal where
  | jstr (s : String)
  | jint (n : Int)
  | jfloat (q : Rat)
  | jbool (b : Bool)
  | jnull
  | jarr (xs : List JVal)
  | jobj (fields : List (String × JVal))

/-- A Python dict with string keys, as an association list (JSON objects
have unique keys, so first-match lookup is dict lookup). -/
abbrev PyDict := List (String × JVal)

/-- Python dict lookup `d[k]` / membership test `k in d`. -/
def dictGet : PyDict → String → Option JVal
  | [], _ => none
  | (k, v) :: rest, key => if k = key then some v else dictGet rest key

/-- The Python exceptions this program can raise. -/
inductive PyErr where
  | keyError (k : String)
  | typeError
  | attributeError
deriving DecidableEq, Repr

/-- `entry[k]` on a JSON value: a `KeyError` on a dict without the key, a
`TypeError` when `entry` is not subscriptable by a string. -/
def getItem (e : JVal) (k : String) : Except PyErr JVal :=
  match e with
  | .jobj d =>
    match dictGet d k with
    | some v => .ok v
    | none => .error (.keyError k)
  | _ => .error .typeError

/-- The body of the `for` loop of `transform_format1_to_unified`
(source lines 64–77) for one element: evaluates
`iso_to_milliseconds(entry['timestamp'])` first (line 66; `str.replace` on
a non-string raises `AttributeError`), then builds the unified dict, whose
remaining values are evaluated in literal order (lines 69–75). -/
def unify1_entry (entry : JVal) : Except PyErr JVal :=
  match getItem entry "timestamp" with
  | .error err => .error err
  | .ok tsv =>
    match tsv with
    | .jstr tss =>
      let timestamp_ms := iso_to_milliseconds tss
      match getItem entry "device_id" with
      | .error err => .error err
      | .ok dev =>
        match getItem entry "temperature" with
        | .error err => .error err
        | .ok tmp =>
          match getItem entry "humidity" with
          | .error err => .error err
          | .ok hum =>
            match getItem entry "pressure" with
            | .error err => .error err
            | .ok prs =>
              .ok (.jobj [("device_id", dev), ("timestamp", .jint timestamp_ms),
                ("temperature", tmp), ("humidity", hum), ("pressure", prs)])
    | _ => .error .attributeError

/-- The body of the `for` loop of `transform_format2_to_unified`
(source lines 114–124) for one element: all five values are copied
verbatim, in literal order. -/
def unify2_entry (entry : JVal) : Except PyErr JVal :=
  match getItem entry "id" with
  | .error err => .error err
  | .ok dev =>
    match getItem entry "ts" with
    | .error err => .error err
    | .ok ts =>
      match getItem entry "temp" with
      | .error err => .error err
      | .ok tmp =>
        match getItem entry "hum" with
        | .error err => .error err
        | .ok hum =>
          match getItem entry "press" with
          | .error err => .error err
          | .ok prs =>
            .ok (.jobj [("device_id", dev), ("timestamp", ts),
              ("temperature", tmp), ("humidity", hum), ("pressure", prs)])

/-- The `for` loop accumulating `unified_data.append(...)`: elements are
processed in order and the first uncaught exception aborts the loop with
no partial list returned. -/
def mapEntries (f : JVal → Except PyErr JVal) : List JVal → Except PyErr (List JVal)
  | [] => .ok []
  | e :: es =>
    match f e with
    | .error err => .error err
    | .ok r =>
      match mapEntries f es with
      | .error err => .error err
      | .ok rest => .ok (r :: rest)

/-- `transform_format1_to_unified` (source lines 31–79): returns `[]` when
the `telemetry` key is absent, otherwise maps the loop body over the list.
Iterating a `telemetry` value that is not a list is modelled as a
`TypeError` (the data model fixes a list there; Python's iteration of other
iterables is outside the model). -/
def transform_format1_to_unified (data : PyDict) : Except PyErr (List JVal) :=
  match dictGet data "telemetry" with
  | none => .ok []
  | some (.jarr entries) => mapEntries unify1_entry entries
  | some _ => .error .typeError

/-- `transform_format2_to_unified` (source lines 81–126): returns `[]` when
the `sensors` key is absent, otherwise maps the loop body over the list. -/
def transform_format2_to_unified (data : PyDict) : Except PyErr (List JVal) :=
  match dictGet data "sensors" with
  | none => .ok []
  | some (.jarr entries) => mapEntries unify2_entry entries
  | some _ => .error .typeError

/-! ## Loading and the run-level entry point -/

/-- The outcome of the I/O attempt behind `load_json_file`: the file was
read and parsed to a document (assumed to be a JSON object, per the
function's `Dict[str, Any]` contract), or reading raised
`FileNotFoundError`, or parsing raised `json.JSONDecodeError`. -/
inductive LoadResult where
  | loaded (d : PyDict)
  | fileNotFound
  | invalidJSON

/-- `load_json_file` (source lines 5–15): both failure branches print a
diagnostic and return the empty dict `{}`. -/
def load_json_file : LoadResult → PyDict
  | .loaded d => d
  | .fileNotFound => []
  | .invalidJSON => []

/-- Whether the load attempt failed (the condition the spec calls
`FileNotFound` / `InvalidJSON`). -/
def isLoadFailure : LoadResult → Bool
  | .loaded _ => false
  | .fileNotFound => true
  | .invalidJSON => true

/-- Python truthiness of a dict: `not data` is true exactly on `{}`. -/
def pyTruthy (d : PyDict) : Bool := !d.isEmpty

namespace Src

/-- `main` (source lines 190–227), up to the persisted output.
`.ok none` models line 202: the guard `if not data1 or not data2` fired and
`main` returned without writing any output file.  `.ok (some l)` models a
run that reached `save_unified_data` with the merged list
`all_unified_data = unified1 + unified2` (lines 208–218).  `.error e`
models an uncaught exception escaping from a transform.  The subsequent
`run_tests()` call only prints and does not change the persisted list, so
it is not modelled.  (The namespace keeps the source's name `main`, which
Lean reserves at top level for an `IO` entry point.) -/
def main (r1 r2 : LoadResult) : Except PyErr (Option (List JVal)) :=
  let data1 := load_json_file r1
  let data2 := load_json_file r2
  if !pyTruthy data1 || !pyTruthy data2 then .ok none
  else
    match transform_format1_to_unified data1 with
    | .error e => .error e
    | .ok unified1 =>
      match transform_format2_to_unified data2 with
      | .error e => .error e
      | .ok unified2 => .ok (some (unified1 ++ unified2))

end Src

/-! ## Well-formedness predicates over JSON values -/

/-- The value is a string. -/
def isStrJ : JVal → Bool
  | .jstr _ => true
  | _ => false

/-- The value is a JSON integer. -/
def isIntJ : JVal → Bool
  | .jint _ => true
  | _ => false

/-- The value is a JSON number (integer or float). -/
def isNumJ : JVal → Bool
  | .jint _ => true
  | .jfloat _ => true
  | _ => false

/-- The value under a key is present. -/
def isSomeV : Option JVal → Bool
  | some _ => true
  | none => false

/-- The value under a key is a string. -/
def isStrV : Option JVal → Bool
  | some v => isStrJ v
  | none => false

/-- The value under a key is a JSON integer. -/
def isIntV : Option JVal → Bool
  | some v => isIntJ v
  | none => false

/-- The value under a key is a JSON number (integer or float). -/
def isNumV : Option JVal → Bool
  | some v => isNumJ v
  | none => false

/-- The element is a JSON object. -/
def isObjJ : JVal → Bool
  | .jobj _ => true
  | _ => false

/-- The required Format-A fields (source lines 66–74). -/
def reqKeysA : List String := ["device_id", "timestamp", "temperature", "humidity", "pressure"]

/-- The required Format-B fields (source lines 117–121). -/
def reqKeysB : List String := ["id", "ts", "temp", "hum", "press"]

/-- The element is a dict that has all five required Format-A keys. -/
def hasAllA : JVal → Bool
  | .jobj d => isSomeV (dictGet d "device_id") && isSomeV (dictGet d "timestamp")
      && isSomeV (dictGet d "temperature") && isSomeV (dictGet d "humidity")
      && isSomeV (dictGet d "pressure")
  | _ => false

/-- The element is a dict that has all five required Format-B keys. -/
def hasAllB : JVal → Bool
  | .jobj d => isSomeV (dictGet d "id") && isSomeV (dictGet d "ts")
      && isSomeV (dictGet d "temp") && isSomeV (dictGet d "hum")
      && isSomeV (dictGet d "press")
  | _ => false

/-- The element is a dict whose `timestamp` field, when present, is textual
(the Format-A data model declares an ISO-8601 string there; on any other
value `str.replace` inside the normalizer raises `AttributeError` instead
of `KeyError`). -/
def tsTextual : JVal → Bool
  | .jobj d =>
    match dictGet d "timestamp" with
    | some (.jstr _) => true
    | none => true
    | some _ => false
  | _ => false

/-- The element conforms to the Format-A record model of spec §3:
`device_id` string, `timestamp` ISO string, the three readings numbers. -/
def schemaA : JVal → Bool
  | .jobj d => isStrV (dictGet d "device_id") && isStrV (dictGet d "timestamp")
      && isNumV (dictGet d "temperature") && isNumV (dictGet d "humidity")
      && isNumV (dictGet d "pressure")
  | _ => false

/-- The element conforms to the Format-B record model of spec §3:
`id` string, `ts` integer milliseconds, the three readings numbers. -/
def schemaB : JVal → Bool
  | .jobj d => isStrV (dictGet d "id") && isIntV (dictGet d "ts")
      && isNumV (dictGet d "temp") && isNumV (dictGet d "hum")
      && isNumV (dictGet d "press")
  | _ => false

/-- The record shape §3 declares for a Unified Record: exactly the five
fields, in insertion order, with `device_id` a string, `timestamp` an
integer and the three readings numbers. -/
def unifiedRecordOK : JVal → Bool
  | .jobj [("device_id", dv), ("timestamp", tv), ("temperature", te),
      ("humidity", hu), ("pressure", pr)] =>
    isStrJ dv && isIntJ tv && isNumJ te && isNumJ hu && isNumJ pr
  | _ => false

/-! ## Helper lemmas about the transformation loop -/

theorem mapEntries_ok_length {f : JVal → Except PyErr JVal} :
    ∀ {es u : List JVal}, mapEntries f es = .ok u → u.length = es.length := by
  intro es
  induction es with
  | nil =>
    intro u h
    simp only [mapEntries] at h
    cases h
    rfl
  | cons e es ih =>
    intro u h
    simp only [mapEntries] at h
    cases hfe : f e with
    | error err => rw [hfe] at h; cases h
    | ok r =>
      rw [hfe] at h
      cases hrest : mapEntries f es with
      | error err => rw [hrest] at h; cases h
      | ok rest =>
        rw [hrest] at h
        cases h
        simp [ih hrest]

theorem mapEntries_ok_get {f : JVal → Except PyErr JVal} :
    ∀ {es u : List JVal}, mapEntries f es = .ok u →
      ∀ (i : Nat) (e : JVal), es[i]? = some e → ∃ r, f e = .ok r ∧ u[i]? = some r := by
  intro es
  induction es with
  | nil => intro u _ i e he; simp at he
  | cons e0 es ih =>
    intro u h i e he
    simp only [mapEntries] at h
    cases hfe : f e0 with
    | error err => rw [hfe] at h; cases h
    | ok r =>
      rw [hfe] at h
      cases hrest : mapEntries f es with
      | error err => rw [hrest] at h; cases h
      | ok rest =>
        rw [hrest] at h
        cases h
        cases i with
        | zero =>
          simp at he
          subst he
          exact ⟨r, hfe, by simp⟩
        | succ j =>
          simp at he
          obtain ⟨r', hr', hu'⟩ := ih hrest j e he
          exact ⟨r', hr', by simpa using hu'⟩

theorem mapEntries_ok_of_all {f : JVal → Except PyErr JVal} :
    ∀ {es : List JVal}, (∀ e ∈ es, ∃ r, f e = .ok r) →
      ∃ u, mapEntries f es = .ok u := by
  intro es
  induction es with
  | nil => intro _; exact ⟨[], rfl⟩
  | cons e es ih =>
    intro hall
    obtain ⟨r, hr⟩ := hall e (List.mem_cons_self e es)
    obtain ⟨u, hu⟩ := ih (fun e' he' => hall e' (List.mem_cons_of_mem e he'))
    exact ⟨r :: u, by simp [mapEntries, hr, hu]⟩

theorem mapEntries_ok_mem {f : JVal → Except PyErr JVal} :
    ∀ {es u : List JVal}, mapEntries f es = .ok u →
      ∀ r ∈ u, ∃ e ∈ es, f e = .ok r := by
  intro es
  induction es with
  | nil =>
    intro u h r hr
    simp only [mapEntries] at h
    cases h
    simp at hr
  | cons e0 es ih =>
    intro u h r hr
    simp only [mapEntries] at h
    cases hfe : f e0 with
    | error err => rw [hfe] at h; cases h
    | ok r0 =>
      rw [hfe] at h
      cases hrest : mapEntries f es with
      | error err => rw [hrest] at h; cases h
      | ok rest =>
        rw [hrest] at h
        cases h
        rcases List.mem_cons.mp hr with heq | hmem
        · exact ⟨e0, List.mem_cons_self e0 es, heq ▸ hfe⟩
        · obtain ⟨e, he, hfe'⟩ := ih hrest r hmem
          exact ⟨e, List.mem_cons_of_mem e0 he, hfe'⟩

theorem mapEntries_error_mixed {f : JVal → Except PyErr JVal} {P : PyErr → Prop} :
    ∀ {es : List JVal},
      (∀ e ∈ es, (∃ r, f e = .ok r) ∨ (∃ err, P err ∧ f e = .error err)) →
      (∃ e ∈ es, ∃ err, P err ∧ f e = .error err) →
      ∃ err, P err ∧ mapEntries f es = .error err := by
  intro es
  induction es with
  | nil => rintro _ ⟨e, he, _⟩; simp at he
  | cons e0 es ih =>
    rintro hall ⟨e, he, err0, hP0, herr0⟩
    rcases hall e0 (List.mem_cons_self e0 es) with ⟨r, hr⟩ | ⟨err, hP, herr⟩
    · rcases List.mem_cons.mp he with heq | hmem
      · subst heq; rw [hr] at herr0; cases herr0
      · obtain ⟨err1, hP1, htail⟩ :=
          ih (fun e' he' => hall e' (List.mem_cons_of_mem e0 he')) ⟨e, hmem, err0, hP0, herr0⟩
        exact ⟨err1, hP1, by simp [mapEntries, hr, htail]⟩
    · exact ⟨err, hP, by simp [mapEntries, herr]⟩

/-! ## Per-entry lemmas for the two loop bodies -/

theorem isStrJ_exists {v : JVal} (h : isStrJ v = true) : ∃ s, v = .jstr s := by
  cases v <;> simp_all [isStrJ]

theorem transform1_eq_mapEntries {d : PyDict} {xs : List JVal}
    (hx : dictGet d "telemetry" = some (.jarr xs)) :
    transform_format1_to_unified d = mapEntries unify1_entry xs := by
  simp [transform_format1_to_unified, hx]

theorem transform2_eq_mapEntries {d : PyDict} {ys : List JVal}
    (hy : dictGet d "sensors" = some (.jarr ys)) :
    transform_format2_to_unified d = mapEntries unify2_entry ys := by
  simp [transform_format2_to_unified, hy]

theorem unify1_entry_eval {d : PyDict} {s : String} {dev tmp hum prs : JVal}
    (hts : dictGet d "timestamp" = some (.jstr s))
    (hdev : dictGet d "device_id" = some dev)
    (htmp : dictGet d "temperature" = some tmp)
    (hhum : dictGet d "humidity" = some hum)
    (hprs : dictGet d "pressure" = some prs) :
    unify1_entry (.jobj d) = .ok (.jobj [("device_id", dev),
      ("timestamp", .jint (iso_to_milliseconds s)), ("temperature", tmp),
      ("humidity", hum), ("pressure", prs)]) := by
  simp [unify1_entry, getItem, hts, hdev, htmp, hhum, hprs]

theorem unify2_entry_eval {d : PyDict} {dev ts tmp hum prs : JVal}
    (hid : dictGet d "id" = some dev)
    (hts : dictGet d "ts" = some ts)
    (htmp : dictGet d "temp" = some tmp)
    (hhum : dictGet d "hum" = some hum)
    (hprs : dictGet d "press" = some prs) :
    unify2_entry (.jobj d) = .ok (.jobj [("device_id", dev),
      ("timestamp", ts), ("temperature", tmp),
      ("humidity", hum), ("pressure", prs)]) := by
  simp [unify2_entry, getItem, hid, hts, htmp, hhum, hprs]

theorem unify1_entry_ok {e : JVal} (ht : tsTextual e = true) (hall : hasAllA e = true) :
    ∃ r, unify1_entry e = .ok r := by
  cases e with
  | jobj d =>
    simp only [hasAllA, Bool.and_eq_true] at hall
    obtain ⟨⟨⟨⟨hdev, hts⟩, htmp⟩, hhum⟩, hprs⟩ := hall
    cases htsv : dictGet d "timestamp" with
    | none => rw [htsv] at hts; simp [isSomeV] at hts
    | some tsv =>
      have htstr : isStrJ tsv = true := by
        simp only [tsTextual, htsv] at ht
        cases tsv <;> simp_all [isStrJ]
      obtain ⟨s, rfl⟩ := isStrJ_exists htstr
      cases hdevv : dictGet d "device_id" with
      | none => rw [hdevv] at hdev; simp [isSomeV] at hdev
      | some dev =>
        cases htmpv : dictGet d "temperature" with
        | none => rw [htmpv] at htmp; simp [isSomeV] at htmp
        | some tmp =>
          cases hhumv : dictGet d "humidity" with
          | none => rw [hhumv] at hhum; simp [isSomeV] at hhum
          | some hum =>
            cases hprsv : dictGet d "pressure" with
            | none => rw [hprsv] at hprs; simp [isSomeV] at hprs
            | some prs =>
              exact ⟨_, unify1_entry_eval htsv hdevv htmpv hhumv hprsv⟩
  | jstr s => simp [tsTextual] at ht
  | jint n => simp [tsTextual] at ht
  | jfloat q => simp [tsTextual] at ht
  | jbool b => simp [tsTextual] at ht
  | jnull => simp [tsTextual] at ht
  | jarr xs => simp [tsTextual] at ht

theorem unify2_entry_ok {e : JVal} (hall : hasAllB e = true) :
    ∃ r, unify2_entry e = .ok r := by
  cases e with
  | jobj d =>
    simp only [hasAllB, Bool.and_eq_true] at hall
    obtain ⟨⟨⟨⟨hid, hts⟩, htmp⟩, hhum⟩, hprs⟩ := hall
    cases hidv : dictGet d "id" with
    | none => rw [hidv] at hid; simp [isSomeV] at hid
    | some dev =>
      cases htsv : dictGet d "ts" with
      | none => rw [htsv] at hts; simp [isSomeV] at hts
      | some ts =>
        cases htmpv : dictGet d "temp" with
        | none => rw [htmpv] at htmp; simp [isSomeV] at htmp
        | some tmp =>
          cases hhumv : dictGet d "hum" with
          | none => rw [hhumv] at hhum; simp [isSomeV] at hhum
          | some hum =>
            cases hprsv : dictGet d "press" with
            | none => rw [hprsv] at hprs; simp [isSomeV] at hprs
            | some prs =>
              exact ⟨_, unify2_entry_eval hidv htsv htmpv hhumv hprsv⟩
  | jstr s => simp [hasAllB] at hall
  | jint n => simp [hasAllB] at hall
  | jfloat q => simp [hasAllB] at hall
  | jbool b => simp [hasAllB] at hall
  | jnull => simp [hasAllB] at hall
  | jarr xs => simp [hasAllB] at hall

theorem unify1_entry_keyError {e : JVal} (ht : tsTextual e = true) (hall : hasAllA e = false) :
    ∃ k, k ∈ reqKeysA ∧ unify1_entry e = .error (.keyError k) := by
  cases e with
  | jobj d =>
    cases htsv : dictGet d "timestamp" with
    | none =>
      exact ⟨"timestamp", by simp [reqKeysA],
        by simp [unify1_entry, getItem, htsv]⟩
    | some tsv =>
      have htstr : isStrJ tsv = true := by
        simp only [tsTextual, htsv] at ht
        cases tsv <;> simp_all [isStrJ]
      obtain ⟨s, rfl⟩ := isStrJ_exists htstr
      cases hdevv : dictGet d "device_id" with
      | none =>
        exact ⟨"device_id", by simp [reqKeysA],
          by simp [unify1_entry, getItem, htsv, hdevv]⟩
      | some dev =>
        cases htmpv : dictGet d "temperature" with
        | none =>
          exact ⟨"temperature", by simp [reqKeysA],
            by simp [unify1_entry, getItem, htsv, hdevv, htmpv]⟩
        | some tmp =>
          cases hhumv : dictGet d "humidity" with
          | none =>
            exact ⟨"humidity", by simp [reqKeysA],
              by simp [unify1_entry, getItem, htsv, hdevv, htmpv, hhumv]⟩
          | some hum =>
            cases hprsv : dictGet d "pressure" with
            | none =>
              exact ⟨"pressure", by simp [reqKeysA],
                by simp [unify1_entry, getItem, htsv, hdevv, htmpv, hhumv, hprsv]⟩
            | some prs =>
              simp [hasAllA, htsv, hdevv, htmpv, hhumv, hprsv, isSomeV] at hall
  | jstr s => simp [tsTextual] at ht
  | jint n => simp [tsTextual] at ht
  | jfloat q => simp [tsTextual] at ht
  | jbool b => simp [tsTextual] at ht
  | jnull => simp [tsTextual] at ht
  | jarr xs => simp [tsTextual] at ht

theorem unify2_entry_keyError {e : JVal} (ho : isObjJ e = true) (hall : hasAllB e = false) :
    ∃ k, k ∈ reqKeysB ∧ unify2_entry e = .error (.keyError k) := by
  cases e with
  | jobj d =>
    cases hidv : dictGet d "id" with
    | none =>
      exact ⟨"id", by simp [reqKeysB], by simp [unify2_entry, getItem, hidv]⟩
    | some dev =>
      cases htsv : dictGet d "ts" with
      | none =>
        exact ⟨"ts", by simp [reqKeysB], by simp [unify2_entry, getItem, hidv, htsv]⟩
      | some ts =>
        cases htmpv : dictGet d "temp" with
        | none =>
          exact ⟨"temp", by simp [reqKeysB],
            by simp [unify2_entry, getItem, hidv, htsv, htmpv]⟩
        | some tmp =>
          cases hhumv : dictGet d "hum" with
          | none =>
            exact ⟨"hum", by simp [reqKeysB],
              by simp [unify2_entry, getItem, hidv, htsv, htmpv, hhumv]⟩
          | some hum =>
            cases hprsv : dictGet d "press" with
            | none =>
              exact ⟨"press", by simp [reqKeysB],
                by simp [unify2_entry, getItem, hidv, htsv, htmpv, hhumv, hprsv]⟩
            | some prs =>
              simp [hasAllB, hidv, htsv, htmpv, hhumv, hprsv, isSomeV] at hall
  | jstr s => simp [isObjJ] at ho
  | jint n => simp [isObjJ] at ho
  | jfloat q => simp [isObjJ] at ho
  | jbool b => simp [isObjJ] at ho
  | jnull => simp [isObjJ] at ho
  | jarr xs => simp [isObjJ] at ho

theorem unify1_entry_schema {e : JVal} (hs : schemaA e = true) :
    ∃ r, unify1_entry e = .ok r ∧ unifiedRecordOK r = true := by
  cases e with
  | jobj d =>
    simp only [schemaA, Bool.and_eq_true] at hs
    obtain ⟨⟨⟨⟨hdev, hts⟩, htmp⟩, hhum⟩, hprs⟩ := hs
    cases hdevv : dictGet d "device_id" with
    | none => rw [hdevv] at hdev; simp [isStrV] at hdev
    | some dev =>
      rw [hdevv] at hdev; simp only [isStrV] at hdev
      cases htsv : dictGet d "timestamp" with
      | none => rw [htsv] at hts; simp [isStrV] at hts
      | some tsv =>
        rw [htsv] at hts; simp only [isStrV] at hts
        obtain ⟨s, rfl⟩ := isStrJ_exists hts
        cases htmpv : dictGet d "temperature" with
        | none => rw [htmpv] at htmp; simp [isNumV] at htmp
        | some tmp =>
          rw [htmpv] at htmp; simp only [isNumV] at htmp
          cases hhumv : dictGet d "humidity" with
          | none => rw [hhumv] at hhum; simp [isNumV] at hhum
          | some hum =>
            rw [hhumv] at hhum; simp only [isNumV] at hhum
            cases hprsv : dictGet d "pressure" with
            | none => rw [hprsv] at hprs; simp [isNumV] at hprs
            | some prs =>
              rw [hprsv] at hprs; simp only [isNumV] at hprs
              refine ⟨_, unify1_entry_eval htsv hdevv htmpv hhumv hprsv, ?_⟩
              simp [unifiedRecordOK, hdev, htmp, hhum, hprs, isIntJ]
  | jstr s => simp [schemaA] at hs
  | jint n => simp [schemaA] at hs
  | jfloat q => simp [schemaA] at hs
  | jbool b => simp [schemaA] at hs
  | jnull => simp [schemaA] at hs
  | jarr xs => simp [schemaA] at hs

theorem unify2_entry_schema {e : JVal} (hs : schemaB e = true) :
    ∃ r, unify2_entry e = .ok r ∧ unifiedRecordOK r = true := by
  cases e with
  | jobj d =>
    simp only [schemaB, Bool.and_eq_true] at hs
    obtain ⟨⟨⟨⟨hid, hts⟩, htmp⟩, hhum⟩, hprs⟩ := hs
    cases hidv : dictGet d "id" with
    | none => rw [hidv] at hid; simp [isStrV] at hid
    | some dev =>
      rw [hidv] at hid; simp only [isStrV] at hid
      cases htsv : dictGet d "ts" with
      | none => rw [htsv] at hts; simp [isIntV] at hts
      | some ts =>
        rw [htsv] at hts; simp only [isIntV] at hts
        cases htmpv : dictGet d "temp" with
        | none => rw [htmpv] at htmp; simp [isNumV] at htmp
        | some tmp =>
          rw [htmpv] at htmp; simp only [isNumV] at htmp
          cases hhumv : dictGet d "hum" with
          | none => rw [hhumv] at hhum; simp [isNumV] at hhum
          | some hum =>
            rw [hhumv] at hhum; simp only [isNumV] at hhum
            cases hprsv : dictGet d "press" with
            | none => rw [hprsv] at hprs; simp [isNumV] at hprs
            | some prs =>
              rw [hprsv] at hprs; simp only [isNumV] at hprs
              refine ⟨_, unify2_entry_eval hidv htsv htmpv hhumv hprsv, ?_⟩
              simp [unifiedRecordOK, hid, hts, htmp, hhum, hprs]
  | jstr s => simp [schemaB] at hs
  | jint n => simp [schemaB] at hs
  | jfloat q => simp [schemaB] at hs
  | jbool b => simp [schemaB] at hs
  | jnull => simp [schemaB] at hs
  | jarr xs => simp [schemaB] at hs

/-! ## Helper lemmas for the normalizer and the entry point -/

theorem replaceZ_append (a b : List Char) :
    replaceZ (a ++ b) = replaceZ a ++ replaceZ b := by
  induction a with
  | nil => rfl
  | cons c cs ih => by_cases h : c = 'Z' <;> simp [replaceZ, h, ih]

theorem main_proceeds (r1 r2 : LoadResult)
    (h : ((load_json_file r1).isEmpty || (load_json_file r2).isEmpty) = false) :
    (∃ err, Src.main r1 r2 = .error err) ∨ (∃ out, Src.main r1 r2 = .ok (some out)) := by
  have hc : (!pyTruthy (load_json_file r1) || !pyTruthy (load_json_file r2)) = false := by
    simpa [pyTruthy] using h
  cases ht1 : transform_format1_to_unified (load_json_file r1) with
  | error e => exact .inl ⟨e, by simp [Src.main, hc, ht1]⟩
  | ok u1 =>
    cases ht2 : transform_format2_to_unified (load_json_file r2) with
    | error e => exact .inl ⟨e, by simp [Src.main, hc, ht1, ht2]⟩
    | ok u2 => exact .inr ⟨u1 ++ u2, by simp [Src.main, hc, ht1, ht2]⟩

theorem main_ok_none_iff (r1 r2 : LoadResult) :
    Src.main r1 r2 = .ok none ↔
      ((load_json_file r1).isEmpty || (load_json_file r2).isEmpty) = true := by
  cases h1 : (load_json_file r1).isEmpty with
  | true => simp [Src.main, pyTruthy, h1]
  | false =>
    cases h2 : (load_json_file r2).isEmpty with
    | true => simp [Src.main, pyTruthy, h1, h2]
    | false =>
      rcases main_proceeds r1 r2 (by simp [h1, h2]) with ⟨e, he⟩ | ⟨o, ho⟩
      · rw [he]; simp [h1, h2]
      · rw [ho]; simp [h1, h2]

/-! ## Concrete documents used by the witnesses -/

/-- A well-formed Format-A entry (its timestamp is textual but not ISO, so
the normalizer maps it to the sentinel 0). -/
def entryA : JVal := .jobj [("device_id", .jstr "sensor_001"),
  ("timestamp", .jstr "not-iso"), ("temperature", .jfloat (47 / 2)),
  ("humidity", .jint 65), ("pressure", .jint 1013)]

/-- A well-formed Format-B entry. -/
def entryB : JVal := .jobj [("id", .jstr "sensor_002"), ("ts", .jint 1697380225123),
  ("temp", .jint 20), ("hum", .jint 50), ("press", .jint 1000)]

/-- The unified record the Format-A loop body builds from `entryA`. -/
def recA : JVal := .jobj [("device_id", .jstr "sensor_001"), ("timestamp", .jint 0),
  ("temperature", .jfloat (47 / 2)), ("humidity", .jint 65), ("pressure", .jint 1013)]

/-- The unified record the Format-B loop body builds from `entryB`. -/
def recB : JVal := .jobj [("device_id", .jstr "sensor_002"),
  ("timestamp", .jint 1697380225123), ("temperature", .jint 20),
  ("humidity", .jint 50), ("pressure", .jint 1000)]

/-- A Format-A document holding `entryA`. -/
def docA : PyDict := [("telemetry", .jarr [entryA])]

/-- A Format-B document holding `entryB`. -/
def docB : PyDict := [("sensors", .jarr [entryB])]

/-- A Format-A entry lacking every required field except `timestamp`. -/
def entryAbad : JVal := .jobj [("timestamp", .jstr "not-iso")]

/-- A Format-B entry lacking every required field except `id`. -/
def entryBbad : JVal := .jobj [("id", .jstr "sensor_002")]

/-- A Format-A document holding the defective `entryAbad`. -/
def docAbad : PyDict := [("telemetry", .jarr [entryAbad])]

/-- A Format-B document holding the defective `entryBbad`. -/
def docBbad : PyDict := [("sensors", .jarr [entryBbad])]

/-! ## The claims -/

/-- C1: when both loaded documents carry their lists (lengths `M` and `N`)
and both mappers succeed, the list `main` persists has length `M + N`, its
first `M` records are exactly the Format-A mapper's output (in input
order) and its remaining `N` records are exactly the Format-B mapper's
output (in input order): Format-A results always precede Format-B
results. -/
theorem c1_merge_order (r1 r2 : LoadResult) (xs ys u1 u2 out : List JVal)
    (hx : dictGet (load_json_file r1) "telemetry" = some (.jarr xs))
    (hy : dictGet (load_json_file r2) "sensors" = some (.jarr ys))
    (h1 : transform_format1_to_unified (load_json_file r1) = .ok u1)
    (h2 : transform_format2_to_unified (load_json_file r2) = .ok u2)
    (hm : Src.main r1 r2 = .ok (some out)) :
    out.length = xs.length + ys.length ∧
    out.take xs.length = u1 ∧ out.drop xs.length = u2 := by
  have hlen1 : u1.length = xs.length :=
    mapEntries_ok_length ((transform1_eq_mapEntries hx).symm.trans h1)
  have hlen2 : u2.length = ys.length :=
    mapEntries_ok_length ((transform2_eq_mapEntries hy).symm.trans h2)
  have hout : out = u1 ++ u2 := by
    cases hc : (!pyTruthy (load_json_file r1) || !pyTruthy (load_json_file r2)) with
    | true => simp [Src.main, hc] at hm
    | false =>
      simp [Src.main, hc, h1, h2] at hm
      exact hm.symm
  subst hout
  refine ⟨by simp [hlen1, hlen2], ?_, ?_⟩
  · rw [← hlen1]; simp
  · rw [← hlen1]; simp

/-- Witness for C1: a one-record Format-A document and a one-record
Format-B document merge to the two unified records, A first. -/
theorem c1_merge_order_witness :
    ([recA, recB] : List JVal).length
        = ([entryA] : List JVal).length + ([entryB] : List JVal).length ∧
    ([recA, recB] : List JVal).take ([entryA] : List JVal).length = [recA] ∧
    ([recA, recB] : List JVal).drop ([entryA] : List JVal).length = [recB] :=
  c1_merge_order (.loaded docA) (.loaded docB) [entryA] [entryB] [recA] [recB]
    [recA, recB] rfl rfl rfl rfl rfl

/-- C2 (counterexample): the normalizer maps "2023-10-15T14:30:25.123Z" to
1697380225123, not to the 1697372225123 the claim states — the documented
expected value is 8000 seconds short of the true epoch milliseconds of
that instant. -/
theorem c2_counterexample :
    iso_to_milliseconds "2023-10-15T14:30:25.123Z" = 1697380225123 ∧
    iso_to_milliseconds "2023-10-15T14:30:25.123Z" ≠ 1697372225123 :=
  ⟨by with_unfolding_all rfl, by with_unfolding_all decide⟩

/-- C2 (amended): the normalizer returns exactly 1697380225123 for both
"2023-10-15T14:30:25.123Z" and "2023-10-15T14:30:25.123+00:00", and in
general for every string the result with a trailing `Z` equals the result
with that suffix replaced by `+00:00` (both are normalized to the same
string before parsing). -/
theorem c2_timestamp_equivalence :
    iso_to_milliseconds "2023-10-15T14:30:25.123Z" = 1697380225123 ∧
    iso_to_milliseconds "2023-10-15T14:30:25.123+00:00" = 1697380225123 ∧
    ∀ p : String, iso_to_milliseconds (p ++ "Z") = iso_to_milliseconds (p ++ "+00:00") := by
  refine ⟨by with_unfolding_all rfl, by with_unfolding_all rfl, ?_⟩
  intro p
  obtain ⟨l⟩ := p
  have h : pyReplaceZ (String.mk l ++ "Z") = pyReplaceZ (String.mk l ++ "+00:00") := by
    show (⟨replaceZ (l ++ "Z".data)⟩ : String) = ⟨replaceZ (l ++ "+00:00".data)⟩
    rw [replaceZ_append, replaceZ_append]
    rfl
  unfold iso_to_milliseconds
  rw [h]

/-- C3 (code bug): on "2004-01-10T13:37:04.001Z" the code returns
1073741824000 although the exact epoch-millisecond count of that instant,
truncated toward zero as the contract demands, is 1073741824001: the
binary64 rounding inside `int(dt.timestamp() * 1000)` loses the final
millisecond. -/
theorem c3_float_truncation_bug :
    iso_to_milliseconds "2004-01-10T13:37:04.001Z" = 1073741824000 ∧
    spec_exact_epoch_ms "2004-01-10T13:37:04.001Z" = some 1073741824001 :=
  ⟨by with_unfolding_all rfl, by with_unfolding_all rfl⟩

/-- C4: for every string the normalizer cannot parse as a valid (aware)
date-time, it does not raise: it returns the sentinel 0 and takes the
diagnostic-printing branch. -/
theorem c4_malformed_returns_zero (s : String)
    (h : fromiso (pyReplaceZ s) = none) :
    iso_to_milliseconds s = 0 ∧ iso_diag s = true := by
  constructor
  · simp [iso_to_milliseconds, h]
  · simp [iso_diag, h]

/-- Witness for C4 at the unparseable string "not-a-date". -/
theorem c4_malformed_returns_zero_witness :
    iso_to_milliseconds "not-a-date" = 0 ∧ iso_diag "not-a-date" = true :=
  c4_malformed_returns_zero "not-a-date" rfl

/-- C5: a document without the mapper's known list key (for instance the
empty document) maps to the empty list, with no error. -/
theorem c5_missing_key_empty (d1 d2 : PyDict)
    (h1 : dictGet d1 "telemetry" = none) (h2 : dictGet d2 "sensors" = none) :
    transform_format1_to_unified d1 = .ok [] ∧
    transform_format2_to_unified d2 = .ok [] := by
  constructor
  · simp [transform_format1_to_unified, h1]
  · simp [transform_format2_to_unified, h2]

/-- Witness for C5 at the empty document `{}`. -/
theorem c5_missing_key_empty_witness :
    transform_format1_to_unified [] = .ok [] ∧
    transform_format2_to_unified [] = .ok [] :=
  c5_missing_key_empty [] [] rfl rfl

/-- The Format-A mapper's transform-level fault: some element lacks a
required field, so the loop body raises `KeyError` on a required key. -/
theorem transform1_keyError_of_missing {d1 : PyDict} {xs : List JVal}
    (hx : dictGet d1 "telemetry" = some (.jarr xs))
    (hA : ∀ e ∈ xs, tsTextual e = true)
    (hmA : ∃ e ∈ xs, hasAllA e = false) :
    ∃ k, k ∈ reqKeysA ∧ transform_format1_to_unified d1 = .error (.keyError k) := by
  have hall : ∀ e ∈ xs, (∃ r, unify1_entry e = .ok r) ∨
      (∃ err, (∃ k, k ∈ reqKeysA ∧ err = .keyError k) ∧ unify1_entry e = .error err) := by
    intro e he
    cases hba : hasAllA e with
    | true => exact .inl (unify1_entry_ok (hA e he) hba)
    | false =>
      obtain ⟨k, hk, herr⟩ := unify1_entry_keyError (hA e he) hba
      exact .inr ⟨.keyError k, ⟨k, hk, rfl⟩, herr⟩
  have hbad : ∃ e ∈ xs, ∃ err,
      (∃ k, k ∈ reqKeysA ∧ err = .keyError k) ∧ unify1_entry e = .error err := by
    obtain ⟨e, he, hba⟩ := hmA
    obtain ⟨k, hk, herr⟩ := unify1_entry_keyError (hA e he) hba
    exact ⟨e, he, .keyError k, ⟨k, hk, rfl⟩, herr⟩
  obtain ⟨err, ⟨k, hk, hkeq⟩, herr⟩ := mapEntries_error_mixed hall hbad
  exact ⟨k, hk, (transform1_eq_mapEntries hx).trans (hkeq ▸ herr)⟩

/-- The Format-B mapper's transform-level fault: some element lacks a
required field, so the loop body raises `KeyError` on a required key. -/
theorem transform2_keyError_of_missing {d2 : PyDict} {ys : List JVal}
    (hy : dictGet d2 "sensors" = some (.jarr ys))
    (hB : ∀ e ∈ ys, isObjJ e = true)
    (hmB : ∃ e ∈ ys, hasAllB e = false) :
    ∃ k, k ∈ reqKeysB ∧ transform_format2_to_unified d2 = .error (.keyError k) := by
  have hall : ∀ e ∈ ys, (∃ r, unify2_entry e = .ok r) ∨
      (∃ err, (∃ k, k ∈ reqKeysB ∧ err = .keyError k) ∧ unify2_entry e = .error err) := by
    intro e he
    cases hba : hasAllB e with
    | true => exact .inl (unify2_entry_ok hba)
    | false =>
      obtain ⟨k, hk, herr⟩ := unify2_entry_keyError (hB e he) hba
      exact .inr ⟨.keyError k, ⟨k, hk, rfl⟩, herr⟩
  have hbad : ∃ e ∈ ys, ∃ err,
      (∃ k, k ∈ reqKeysB ∧ err = .keyError k) ∧ unify2_entry e = .error err := by
    obtain ⟨e, he, hba⟩ := hmB
    obtain ⟨k, hk, herr⟩ := unify2_entry_keyError (hB e he) hba
    exact ⟨e, he, .keyError k, ⟨k, hk, rfl⟩, herr⟩
  obtain ⟨err, ⟨k, hk, hkeq⟩, herr⟩ := mapEntries_error_mixed hall hbad
  exact ⟨k, hk, (transform2_eq_mapEntries hy).trans (hkeq ▸ herr)⟩

/-- C6: a document with an element that lacks a required field makes the
corresponding mapper fail with a propagating `KeyError` naming a required
field, with no partial list returned, and `main` does not catch it —
independently for each format: a Format-A fault aborts the run directly
(the Format-B transform is never reached), and a sole Format-B fault
aborts the run right after the successful Format-A transform.  (The
elements are dicts, and a present Format-A timestamp is textual, as its
data model declares — a non-string timestamp faults first with
`AttributeError` instead of `KeyError`.) -/
theorem c6_missing_field_propagates :
    (∀ (d1 : PyDict) (xs : List JVal),
      dictGet d1 "telemetry" = some (.jarr xs) →
      (∀ e ∈ xs, tsTextual e = true) →
      (∃ e ∈ xs, hasAllA e = false) →
      (∃ k, k ∈ reqKeysA ∧ transform_format1_to_unified d1 = .error (.keyError k)) ∧
      (∀ (r1 r2 : LoadResult) (err : PyErr),
        load_json_file r1 = d1 →
        pyTruthy d1 = true → pyTruthy (load_json_file r2) = true →
        transform_format1_to_unified d1 = .error err →
        Src.main r1 r2 = .error err)) ∧
    (∀ (d2 : PyDict) (ys : List JVal),
      dictGet d2 "sensors" = some (.jarr ys) →
      (∀ e ∈ ys, isObjJ e = true) →
      (∃ e ∈ ys, hasAllB e = false) →
      (∃ k, k ∈ reqKeysB ∧ transform_format2_to_unified d2 = .error (.keyError k)) ∧
      (∀ (r1 r2 : LoadResult) (err : PyErr) (u1 : List JVal),
        load_json_file r2 = d2 →
        pyTruthy (load_json_file r1) = true → pyTruthy d2 = true →
        transform_format1_to_unified (load_json_file r1) = .ok u1 →
        transform_format2_to_unified d2 = .error err →
        Src.main r1 r2 = .error err)) := by
  constructor
  · intro d1 xs hx hA hmA
    refine ⟨transform1_keyError_of_missing hx hA hmA, ?_⟩
    intro r1 r2 err hl1 ht1 ht2 herr
    subst hl1
    simp [Src.main, ht1, ht2, herr]
  · intro d2 ys hy hB hmB
    refine ⟨transform2_keyError_of_missing hy hB hmB, ?_⟩
    intro r1 r2 err u1 hl2 ht1 ht2 h1ok herr
    subst hl2
    simp [Src.main, ht1, ht2, h1ok, herr]

/-- Witness for C6, exercising both independent abort scenarios: a
Format-A document whose only record lacks `device_id` (and more) aborts
the run on its own, and a Format-B document whose only record lacks `ts`
(and more) aborts the run even though the Format-A document is
well-formed and its transform succeeded. -/
theorem c6_missing_field_propagates_witness :
    ((∃ k, k ∈ reqKeysA ∧ transform_format1_to_unified docAbad = .error (.keyError k)) ∧
      Src.main (.loaded docAbad) (.loaded docB) = .error (.keyError "device_id")) ∧
    ((∃ k, k ∈ reqKeysB ∧ transform_format2_to_unified docBbad = .error (.keyError k)) ∧
      Src.main (.loaded docA) (.loaded docBbad) = .error (.keyError "ts")) :=
  ⟨⟨(c6_missing_field_propagates.1 docAbad [entryAbad] rfl (by decide) (by decide)).1,
    (c6_missing_field_propagates.1 docAbad [entryAbad] rfl (by decide) (by decide)).2
      (.loaded docAbad) (.loaded docB) (.keyError "device_id") rfl rfl rfl rfl⟩,
   ⟨(c6_missing_field_propagates.2 docBbad [entryBbad] rfl (by decide) (by decide)).1,
    (c6_missing_field_propagates.2 docBbad [entryBbad] rfl (by decide) (by decide)).2
      (.loaded docA) (.loaded docBbad) (.keyError "ts") [recA] rfl rfl rfl rfl rfl⟩⟩

/-- C7: for documents whose known keys hold lists of records with every
required field present (Format-A timestamps textual, as that data model
declares), each mapper succeeds with a list of exactly the input length,
and output record `i` is the unified record its loop body builds from
input record `i` — a stable 1:1 index correspondence with no filtering or
reordering. -/
theorem c7_index_preserving (d1 d2 : PyDict) (xs ys : List JVal)
    (hx : dictGet d1 "telemetry" = some (.jarr xs))
    (hy : dictGet d2 "sensors" = some (.jarr ys))
    (hA : ∀ e ∈ xs, tsTextual e = true ∧ hasAllA e = true)
    (hB : ∀ e ∈ ys, hasAllB e = true) :
    ∃ u1 u2, transform_format1_to_unified d1 = .ok u1 ∧
      transform_format2_to_unified d2 = .ok u2 ∧
      u1.length = xs.length ∧ u2.length = ys.length ∧
      (∀ (i : Nat) (e : JVal), xs[i]? = some e →
        ∃ r, unify1_entry e = .ok r ∧ u1[i]? = some r) ∧
      (∀ (i : Nat) (e : JVal), ys[i]? = some e →
        ∃ r, unify2_entry e = .ok r ∧ u2[i]? = some r) := by
  obtain ⟨u1, hu1⟩ := mapEntries_ok_of_all (f := unify1_entry)
    (fun e he => unify1_entry_ok (hA e he).1 (hA e he).2)
  obtain ⟨u2, hu2⟩ := mapEntries_ok_of_all (f := unify2_entry)
    (fun e he => unify2_entry_ok (hB e he))
  exact ⟨u1, u2, (transform1_eq_mapEntries hx).trans hu1,
    (transform2_eq_mapEntries hy).trans hu2,
    mapEntries_ok_length hu1, mapEntries_ok_length hu2,
    mapEntries_ok_get hu1, mapEntries_ok_get hu2⟩

/-- Witness for C7 at one-record documents. -/
theorem c7_index_preserving_witness :
    ∃ u1 u2, transform_format1_to_unified docA = .ok u1 ∧
      transform_format2_to_unified docB = .ok u2 ∧
      u1.length = ([entryA] : List JVal).length ∧
      u2.length = ([entryB] : List JVal).length ∧
      (∀ (i : Nat) (e : JVal), ([entryA] : List JVal)[i]? = some e →
        ∃ r, unify1_entry e = .ok r ∧ u1[i]? = some r) ∧
      (∀ (i : Nat) (e : JVal), ([entryB] : List JVal)[i]? = some e →
        ∃ r, unify2_entry e = .ok r ∧ u2[i]? = some r) :=
  c7_index_preserving docA docB [entryA] [entryB] rfl rfl (by decide) (by decide)

/-- C8: every record either mapper produces from schema-conforming input
(spec §3) carries exactly the five unified fields, in insertion order,
with `device_id` a string, `timestamp` an integer and the three readings
numbers. -/
theorem c8_field_completeness (d1 d2 : PyDict) (xs ys u1 u2 : List JVal)
    (hx : dictGet d1 "telemetry" = some (.jarr xs))
    (hy : dictGet d2 "sensors" = some (.jarr ys))
    (hA : ∀ e ∈ xs, schemaA e = true)
    (hB : ∀ e ∈ ys, schemaB e = true)
    (h1 : transform_format1_to_unified d1 = .ok u1)
    (h2 : transform_format2_to_unified d2 = .ok u2) :
    (∀ r ∈ u1, unifiedRecordOK r = true) ∧ (∀ r ∈ u2, unifiedRecordOK r = true) := by
  constructor
  · intro r hr
    obtain ⟨e, he, hfe⟩ :=
      mapEntries_ok_mem ((transform1_eq_mapEntries hx).symm.trans h1) r hr
    obtain ⟨r', hr', hOK⟩ := unify1_entry_schema (hA e he)
    rw [hfe] at hr'
    cases hr'
    exact hOK
  · intro r hr
    obtain ⟨e, he, hfe⟩ :=
      mapEntries_ok_mem ((transform2_eq_mapEntries hy).symm.trans h2) r hr
    obtain ⟨r', hr', hOK⟩ := unify2_entry_schema (hB e he)
    rw [hfe] at hr'
    cases hr'
    exact hOK

/-- Witness for C8 at one-record schema-conforming documents. -/
theorem c8_field_completeness_witness :
    (∀ r ∈ ([recA] : List JVal), unifiedRecordOK r = true) ∧
    (∀ r ∈ ([recB] : List JVal), unifiedRecordOK r = true) :=
  c8_field_completeness docA docB [entryA] [entryB] [recA] [recB] rfl rfl
    (by decide) (by decide) rfl rfl

/-- C9 (counterexample): both documents load successfully — no
`FileNotFound`, no `InvalidJSON` — yet because the first parses to the
empty object `{}` the entry point still returns without writing output,
refuting "aborts only if at least one input document failed to load". -/
theorem c9_counterexample :
    isLoadFailure (.loaded []) = false ∧
    isLoadFailure (.loaded [("sensors", JVal.jarr [])]) = false ∧
    Src.main (.loaded []) (.loaded [("sensors", JVal.jarr [])]) = .ok none :=
  ⟨rfl, rfl, rfl⟩

/-- C9 (amended): the entry point aborts — returns without writing output —
exactly when at least one loaded document is the empty (falsy) dict; every
load failure implies this (failures are substituted with `{}`), and when
neither document is empty the run proceeds into the transforms, ending in
either an uncaught transform exception or a persisted merged list. -/
theorem c9_abort_condition_amended (r1 r2 : LoadResult) :
    (Src.main r1 r2 = .ok none ↔
      ((load_json_file r1).isEmpty || (load_json_file r2).isEmpty) = true) ∧
    (isLoadFailure r1 = true → Src.main r1 r2 = .ok none) ∧
    (isLoadFailure r2 = true → Src.main r1 r2 = .ok none) ∧
    (((load_json_file r1).isEmpty || (load_json_file r2).isEmpty) = false →
      (∃ err, Src.main r1 r2 = .error err) ∨ (∃ out, Src.main r1 r2 = .ok (some out))) := by
  refine ⟨main_ok_none_iff r1 r2, ?_, ?_, main_proceeds r1 r2⟩
  · intro hf
    refine (main_ok_none_iff r1 r2).mpr ?_
    cases r1 with
    | loaded d => simp [isLoadFailure] at hf
    | fileNotFound => simp [load_json_file]
    | invalidJSON => simp [load_json_file]
  · intro hf
    refine (main_ok_none_iff r1 r2).mpr ?_
    cases r2 with
    | loaded d => simp [isLoadFailure] at hf
    | fileNotFound => simp [load_json_file]
    | invalidJSON => simp [load_json_file]

/-- Witness for C9 (amended): a missing first file aborts the run. -/
theorem c9_abort_condition_amended_witness :
    Src.main .fileNotFound (.loaded [("sensors", JVal.jarr [])]) = .ok none :=
  (c9_abort_condition_amended .fileNotFound (.loaded [("sensors", JVal.jarr [])])).2.1 rfl

/-- C10: the entry point's abort condition is the falsiness of each parsed
document, not an actual load failure: a successfully parsed `{}` is the
very value both load-failure branches return, the whole pipeline treats
the three cases identically, and the empty-object run (which is not a load
failure) also aborts without producing output. -/
theorem c10_empty_document_aborts (r2 : LoadResult) :
    load_json_file .fileNotFound = load_json_file (.loaded []) ∧
    load_json_file .invalidJSON = load_json_file (.loaded []) ∧
    Src.main (.loaded []) r2 = Src.main .fileNotFound r2 ∧
    Src.main (.loaded []) r2 = Src.main .invalidJSON r2 ∧
    Src.main (.loaded []) r2 = .ok none ∧
    isLoadFailure (.loaded []) = false ∧
    ∀ r1 : LoadResult, Src.main r1 r2 = .ok none ↔
      ((load_json_file r1).isEmpty || (load_json_file r2).isEmpty) = true :=
  ⟨rfl, rfl, rfl, rfl, rfl, rfl, fun r1 => main_ok_none_iff r1 r2⟩
